/-
  Verification of the SGDAutomaticHover color-palette pipeline.

  Shallow embedding of the repository's three JavaScript sources:
    * `hover2.js`  — the extended variant (learned 4-parameter hover policy);
    * `hover.js`   — the simple variant (its `parseRgbInput` form parser);
    * the unnamed third file — the simple pipeline variant, whose helper
      functions (`parseRGB`, `clamp01`, `clamp255`, `rgb01`, `rgb255`,
      `srgbToLinear`, `relLuminance`, `contrastRatio`, `sigmoid`,
      `textColorFromParams`, `lossForText`, `gradNumerical`, `optimizeText`,
      `rgbToHsv`, `hsvToRgb`) are verbatim duplicates of the ones in
      `hover2.js`; each such function is therefore defined once here.

  Modelling conventions:
    * JavaScript numbers are idealized as exact rationals (ℚ); floating-point
      rounding is out of scope.
    * The two transcendental library calls — `Math.exp` (inside `sigmoid`)
      and `Math.pow(·, 2.4)` (inside `srgbToLinear`'s gamma branch) — have no
      exact rational counterpart, so they are abstracted as fields of a
      `JsMath` parameter threaded through every definition that needs them.
      Structural theorems are proved for every interpretation of `JsMath`;
      concrete evaluations pick inputs on which those fields are never
      consulted (all channels in the linear sRGB branch), so the stub
      interpretation `M0` used in witnesses is immaterial there.
    * JavaScript strings are modelled as `String` / `List Char`;
      `text.split(",")`, `trim`, `Number(...)` and `parseInt(..., 10)` are
      modelled by `splitChar`, `trimChars`, `jsNumber` and `jsParseInt`
      (`jsNumber` covers decimal numerals — sign, digits, optional fractional
      part — which is the fragment the parsers are exercised on; `NaN` is
      modelled as `none`).
    * `Math.round` is `jsRound` (half-up, `⌊x + 1/2⌋`), `Math.trunc`-style
      `%` is `jsMod`/`jsTrunc` (JavaScript `%` truncates toward zero).
-/
import Mathlib

/-- Abstraction of the two transcendental `Math` library calls the source
uses: `exp` models `Math.exp`, `pow24` models `x ↦ Math.pow(x, 2.4)`. -/
structure JsMath where
  exp : ℚ → ℚ
  pow24 : ℚ → ℚ

/-- Stub interpretation of `JsMath`, used only at inputs where neither field
is consulted (or where the value is irrelevant to the statement). -/
def M0 : JsMath := { exp := fun _ => 1, pow24 := fun x => x }

/-- An RGB color with rational channels (JS number triple `[r,g,b]`). -/
structure Rgb where
  r : ℚ
  g : ℚ
  b : ℚ
deriving DecidableEq, Repr

/-- An HSV triple (JS number triple `[h,s,v]`). -/
structure Hsv where
  h : ℚ
  s : ℚ
  v : ℚ
deriving DecidableEq, Repr

/-- An RGB byte triple (integer channels), the `Color255` representation. -/
structure Rgb255 where
  r : ℤ
  g : ℤ
  b : ℤ
deriving DecidableEq, Repr

/-- JavaScript `Math.trunc` on rationals: round toward zero. -/
def jsTrunc (x : ℚ) : ℤ := if 0 ≤ x then ⌊x⌋ else -⌊-x⌋

/-- JavaScript `%` (remainder, truncating toward zero) on rationals. -/
def jsMod (a b : ℚ) : ℚ := a - b * (jsTrunc (a / b) : ℚ)

/-- JavaScript `Math.round` on rationals: half-up rounding. -/
def jsRound (x : ℚ) : ℤ := ⌊x + 1 / 2⌋

/-- `hover2.js` line 3: `clamp01(x) = Math.max(0, Math.min(1, x))`. -/
def clamp01 (x : ℚ) : ℚ := max 0 (min 1 x)

/-- `hover2.js` line 4: `clamp255(x) = Math.round(Math.max(0, Math.min(255, x)))`. -/
def clamp255 (x : ℚ) : ℤ := jsRound (max 0 (min 255 x))

/-! ### String parsing primitives -/

/-- `String.prototype.split` with a one-character separator, on char lists
(structural recursion so that concrete inputs evaluate by `decide`). -/
def splitChar (sep : Char) : List Char → List (List Char)
  | [] => [[]]
  | c :: t =>
    match splitChar sep t with
    | [] => [[]]
    | h :: r => if c = sep then [] :: h :: r else (c :: h) :: r

/-- `String.prototype.trim` on char lists (drop whitespace at both ends). -/
def trimChars (l : List Char) : List Char :=
  ((l.dropWhile Char.isWhitespace).reverse.dropWhile Char.isWhitespace).reverse

/-- Value of a list of decimal digit characters. -/
def digitsToNat (l : List Char) : ℕ :=
  l.foldl (fun n c => 10 * n + (c.toNat - 48)) 0

/-- Decimal numeral (digits, optional point and fraction digits); `none`
models `NaN`. Accepts `"5."` and `".5"` as JavaScript `Number` does. -/
def decNumeral (l : List Char) : Option ℚ :=
  let intPart := l.takeWhile Char.isDigit
  match l.dropWhile Char.isDigit with
  | [] => if intPart.isEmpty then none else some (digitsToNat intPart)
  | '.' :: frac =>
    if frac.all Char.isDigit && !(intPart.isEmpty && frac.isEmpty) then
      some ((digitsToNat intPart : ℚ) + (digitsToNat frac : ℚ) / 10 ^ frac.length)
    else none
  | _ => none

/-- JavaScript `Number(str)` on an already-trimmed string, restricted to the
decimal-numeral fragment the repository's parsers are exercised on
(`Number("") = 0`; a non-numeral yields `NaN`, modelled as `none`). -/
def jsNumber (l : List Char) : Option ℚ :=
  match l with
  | [] => some 0
  | '-' :: t => (decNumeral t).map (fun q => -q)
  | '+' :: t => decNumeral t
  | t => decNumeral t

/-- JavaScript `parseInt(str, 10)` on an already-trimmed string: optional
sign, then the longest prefix of digits; `none` models `NaN`. -/
def jsParseInt (l : List Char) : Option ℤ :=
  match l with
  | '-' :: t =>
    let ds := t.takeWhile Char.isDigit
    if ds.isEmpty then none else some (-(digitsToNat ds : ℤ))
  | '+' :: t =>
    let ds := t.takeWhile Char.isDigit
    if ds.isEmpty then none else some (digitsToNat ds)
  | t =>
    let ds := t.takeWhile Char.isDigit
    if ds.isEmpty then none else some (digitsToNat ds)

/-- The comma-separated, trimmed, non-empty tokens of an input string:
`text.split(",").map(s => s.trim()).filter(Boolean)` from `parseRGB`. -/
def rgbTokens (s : String) : List (List Char) :=
  ((splitChar ',' s.data).map trimChars).filter (fun t => t ≠ [])

/-- `hover2.js` lines 6–12 (identical in the unnamed file, lines 5–11):
split on commas, trim, drop empty tokens, require exactly three tokens, all
numeric (`Number`, `NaN` check), then clamp each channel with `clamp255`. -/
def parseRGB (s : String) : Option (List ℤ) :=
  let parts := rgbTokens s
  if parts.length = 3 then
    match parts.mapM jsNumber with
    | some nums => some (nums.map clamp255)
    | none => none
  else none

/-- `hover.js` lines 7–13: split on commas, `parseInt` each trimmed token,
reject unless exactly three tokens all integers inside `[0,255]`, then scale
each accepted channel by `1/255`. -/
def parseRgbInput (s : String) : Option (List ℚ) :=
  let parts := (splitChar ',' s.data).map (fun v => jsParseInt (trimChars v))
  if parts.length = 3 then
    if parts.any (fun o => o.isNone || decide (o.getD 0 < 0) || decide (255 < o.getD 0)) then
      none
    else some (parts.map (fun o => ((o.getD 0 : ℚ) / 255)))
  else none

/-! ### Color space utilities -/

/-- `hover2.js` line 15: `rgb01([r,g,b]) = [r/255, g/255, b/255]`. -/
def rgb01 (c : Rgb) : Rgb := ⟨c.r / 255, c.g / 255, c.b / 255⟩

/-- `hover2.js` line 16: `rgb255` clamps and rounds each channel to a byte. -/
def rgb255 (c : Rgb) : Rgb255 := ⟨clamp255 c.r, clamp255 c.g, clamp255 c.b⟩

/-- `setCssVars` (`hover2.js` line 259): `base01.map(v => v*255)`, the
scaling half of the `Color01 → Color255` conversion. -/
def scale255 (c : Rgb) : Rgb := ⟨c.r * 255, c.g * 255, c.b * 255⟩

/-- `hover2.js` lines 19–21: piecewise sRGB linearization; the gamma branch
calls `Math.pow(·, 2.4)`, abstracted as `M.pow24`. -/
def srgbToLinear (M : JsMath) (c : ℚ) : ℚ :=
  if c ≤ 0.04045 then c / 12.92 else M.pow24 ((c + 0.055) / 1.055)

/-- `hover2.js` lines 22–25: BT.709-weighted relative luminance. -/
def relLuminance (M : JsMath) (c : Rgb) : ℚ :=
  0.2126 * srgbToLinear M c.r + 0.7152 * srgbToLinear M c.g
    + 0.0722 * srgbToLinear M c.b

/-- `hover2.js` lines 28–32: WCAG-style contrast ratio. -/
def contrastRatio (L1 L2 : ℚ) : ℚ :=
  (max L1 L2 + 0.05) / (min L1 L2 + 0.05)

/-- `hover2.js` lines 324–341: six-sector RGB→HSV conversion; `h` starts at
0 and is only recomputed when `d ≠ 0`; `s` is 0 when `max = 0`. -/
def rgbToHsv (c : Rgb) : Hsv :=
  let mx := max c.r (max c.g c.b)
  let mn := min c.r (min c.g c.b)
  let d := mx - mn
  let s := if mx = 0 then 0 else d / mx
  let v := mx
  if d ≠ 0 then
    let h0 := if mx = c.r then jsMod ((c.g - c.b) / d) 6
              else if mx = c.g then (c.b - c.r) / d + 2
              else (c.r - c.g) / d + 4
    let h1 := h0 / 6
    ⟨if h1 < 0 then h1 + 1 else h1, s, v⟩
  else ⟨0, s, v⟩

/-- Division instrumented against zero divisors: `none` signals an actual
division by zero. -/
def divD (a b : ℚ) : Option ℚ := if b = 0 then none else some (a / b)

/-- `rgbToHsv` with every division routed through `divD`, so that
`rgbToHsvD c = some _` certifies that no division by zero was performed. -/
def rgbToHsvD (c : Rgb) : Option Hsv :=
  let mx := max c.r (max c.g c.b)
  let mn := min c.r (min c.g c.b)
  let d := mx - mn
  let v := mx
  (if mx = 0 then some 0 else divD d mx).bind fun s =>
    (if d ≠ 0 then
        (if mx = c.r then (divD (c.g - c.b) d).map (fun x => jsMod x 6)
         else if mx = c.g then (divD (c.b - c.r) d).map (· + 2)
         else (divD (c.r - c.g) d).map (· + 4)).map
          (fun h0 => let h1 := h0 / 6; if h1 < 0 then h1 + 1 else h1)
      else some 0).bind fun h =>
      some ⟨h, s, v⟩

/-- `hover2.js` lines 343–358: six-sector HSV→RGB conversion. The JS
`switch (i % 6)` (truncating `%`) has no default: a negative remainder —
possible only for `h < 0`, which no caller in the repository produces —
falls through to `undefined`; that unreachable branch is totalized to black. -/
def hsvToRgb (c : Hsv) : Rgb :=
  let i : ℤ := ⌊c.h * 6⌋
  let f := c.h * 6 - (i : ℚ)
  let p := c.v * (1 - c.s)
  let q := c.v * (1 - f * c.s)
  let t := c.v * (1 - (1 - f) * c.s)
  let tm := Int.tmod i 6
  if tm = 0 then ⟨c.v, t, p⟩
  else if tm = 1 then ⟨q, c.v, p⟩
  else if tm = 2 then ⟨p, c.v, t⟩
  else if tm = 3 then ⟨p, q, c.v⟩
  else if tm = 4 then ⟨t, p, c.v⟩
  else if tm = 5 then ⟨c.v, p, q⟩
  else ⟨0, 0, 0⟩

/-! ### Differentiable model pieces (`hover2.js`) -/

/-- `hover2.js` lines 40–62: hover color as a mix of the base toward a
per-channel darkened target; every policy entry is clamped into `[0,1]`
(`clamp01`) before use. -/
def hoverFromBase (base01 : Rgb) (theta : Fin 4 → ℚ) : Rgb :=
  let t := clamp01 (theta 0)
  let fr := clamp01 (theta 1)
  let fg := clamp01 (theta 2)
  let fb := clamp01 (theta 3)
  let target : Rgb := ⟨clamp01 (base01.r * fr), clamp01 (base01.g * fg),
    clamp01 (base01.b * fb)⟩
  ⟨(1 - t) * base01.r + t * target.r,
   (1 - t) * base01.g + t * target.g,
   (1 - t) * base01.b + t * target.b⟩

/-- Unnamed file, lines 39–56: the simple variant's hover derivation with
the fixed policy `t = 0.18`, factors `(0.82, 0.86, 0.92)`. -/
def hoverFromBaseFixed (base01 : Rgb) : Rgb :=
  let t : ℚ := 0.18
  let target : Rgb := ⟨clamp01 (base01.r * 0.82), clamp01 (base01.g * 0.86),
    clamp01 (base01.b * 0.92)⟩
  ⟨(1 - t) * base01.r + t * target.r,
   (1 - t) * base01.g + t * target.g,
   (1 - t) * base01.b + t * target.b⟩

/-- `hover2.js` line 70: logistic sigmoid, `Math.exp` abstracted as `M.exp`. -/
def sigmoid (M : JsMath) (x : ℚ) : ℚ := 1 / (1 + M.exp (-x))

/-- `hover2.js` lines 71–73: unconstrained parameters to a `[0,1]` color. -/
def textColorFromParams (M : JsMath) (p : Fin 3 → ℚ) : Rgb :=
  ⟨sigmoid M (p 0), sigmoid M (p 1), sigmoid M (p 2)⟩

/-- `hover2.js` lines 79–106: text loss = squared contrast deficit below 6.0
plus 0.18 × squared distance to a complementary-hue target color plus a
0.0015-weighted magnitude regularizer. -/
def lossForText (M : JsMath) (bg01 text01 : Rgb) : ℚ :=
  let Lbg := relLuminance M bg01
  let Ltx := relLuminance M text01
  let cr := contrastRatio Lbg Ltx
  let contrastLoss := (max 0 (6.0 - cr)) ^ 2
  let hsv := rgbToHsv bg01
  let targetH := jsMod (hsv.h + 0.5) 1
  let targetS := clamp01 (max 0.55 hsv.s)
  let targetV : ℚ := if Lbg > 0.5 then 0.15 else 0.95
  let targetRgb := hsvToRgb ⟨targetH, targetS, targetV⟩
  let styleLoss := (text01.r - targetRgb.r) ^ 2 + (text01.g - targetRgb.g) ^ 2
    + (text01.b - targetRgb.b) ^ 2
  let reg := 0.0015 * (text01.r ^ 2 + text01.g ^ 2 + text01.b ^ 2)
  contrastLoss + 0.18 * styleLoss + reg

/-- `hover2.js` lines 113–124: finite-difference gradient of the text loss —
each axis is bumped by `eps = 1e-3` and a forward difference is taken
against `baseLoss`; returns `(baseLoss, g)`. -/
def gradNumerical (M : JsMath) (bg01 : Rgb) (params : Fin 3 → ℚ) :
    ℚ × (Fin 3 → ℚ) :=
  let eps : ℚ := 1e-3
  let baseLoss := lossForText M bg01 (textColorFromParams M params)
  (baseLoss, fun i =>
    (lossForText M bg01
        (textColorFromParams M (Function.update params i (params i + eps)))
      - baseLoss) / eps)

/-- Result record of `optimizeText` (`{ params, color01, loss }`). -/
structure TextResult where
  params : Fin 3 → ℚ
  color01 : Rgb
  loss : ℚ

/-- One iteration of the `optimizeText` loop (`hover2.js` lines 136–143):
gradient step on every axis, then the learning-rate decay (`×0.6` after the
update of step 60, `×0.7` after step 110); no box constraint on `p`. -/
def textStep (M : JsMath) (bg01 : Rgb) (st : (Fin 3 → ℚ) × ℚ) (s : ℕ) :
    (Fin 3 → ℚ) × ℚ :=
  let g := (gradNumerical M bg01 st.1).2
  let p := fun i => st.1 i - st.2 * g i
  let lr := if s = 60 then st.2 * 0.6 else if s = 110 then st.2 * 0.7 else st.2
  (p, lr)

/-- `hover2.js` lines 129–145: gradient descent on the text parameters for a
fixed number of steps starting from `(initParams, lr)`. -/
def optimizeText (M : JsMath) (bg01 : Rgb) (steps : ℕ) (lr : ℚ)
    (initParams : Fin 3 → ℚ) : TextResult :=
  let st := (List.range steps).foldl (textStep M bg01) (initParams, lr)
  { params := st.1
    color01 := textColorFromParams M st.1
    loss := lossForText M bg01 (textColorFromParams M st.1) }

/-! ### Hover-parameter SGD (`hover2.js`) -/

/-- `hover2.js` lines 147–182: hover-policy loss = squared deviation of the
hover/base squared-distance from 0.06, plus 0.6 × squared deviation of the
luminance shift from 0.25, plus 0.2 × extremity penalty outside luminance
band `[0.08, 0.92]`, plus a 0.002-weighted pull toward the prior
`(0.18, 0.82, 0.86, 0.92)`. -/
def lossForHoverTheta (M : JsMath) (base01 : Rgb) (theta : Fin 4 → ℚ) : ℚ :=
  let hover01 := hoverFromBase base01 theta
  let diff := (hover01.r - base01.r) ^ 2 + (hover01.g - base01.g) ^ 2
    + (hover01.b - base01.b) ^ 2
  let targetDiff : ℚ := 0.06
  let diffLoss := (diff - targetDiff) ^ 2
  let Lb := relLuminance M base01
  let Lh := relLuminance M hover01
  let lumDiff := |Lh - Lb|
  let targetLum : ℚ := 0.25
  let lumLoss := (lumDiff - targetLum) ^ 2
  let extremeLoss := (max 0 (0.08 - Lh)) ^ 2 + (max 0 (Lh - 0.92)) ^ 2
  let reg := 0.002 * ((theta 0 - 0.18) ^ 2 + (theta 1 - 0.82) ^ 2
    + (theta 2 - 0.86) ^ 2 + (theta 3 - 0.92) ^ 2)
  diffLoss + 0.6 * lumLoss + 0.2 * extremeLoss + reg

/-- `hover2.js` lines 184–195: finite-difference gradient of the
hover-policy loss — each of the four axes is bumped by `eps = 1e-3` and a
forward difference is taken against `baseLoss`; returns `(baseLoss, g)`. -/
def gradThetaNumerical (M : JsMath) (base01 : Rgb) (theta : Fin 4 → ℚ) :
    ℚ × (Fin 4 → ℚ) :=
  let eps : ℚ := 1e-3
  let baseLoss := lossForHoverTheta M base01 theta
  (baseLoss, fun i =>
    (lossForHoverTheta M base01 (Function.update theta i (theta i + eps))
      - baseLoss) / eps)

/-- Result record of `optimizeHoverTheta` (`{ theta, loss }`). -/
structure HoverOptResult where
  theta : Fin 4 → ℚ
  loss : ℚ

/-- One iteration of the `optimizeHoverTheta` loop (`hover2.js` lines
204–216): gradient step, then the box constraint on every axis — axis 0 is
`max(0.35, clamp01 ·)`, axes 1–3 are `clamp01(max(0.35, ·))` — then the
learning-rate decay. -/
def thetaStep (M : JsMath) (base01 : Rgb) (st : (Fin 4 → ℚ) × ℚ) (s : ℕ) :
    (Fin 4 → ℚ) × ℚ :=
  let g := (gradThetaNumerical M base01 st.1).2
  let th := fun i => st.1 i - st.2 * g i
  let th' : Fin 4 → ℚ := fun i =>
    if i = 0 then max 0.35 (clamp01 (th 0)) else clamp01 (max 0.35 (th i))
  let lr := if s = 60 then st.2 * 0.6 else if s = 110 then st.2 * 0.7 else st.2
  (th', lr)

/-- The `(theta, lr)` state after `n` iterations of `optimizeHoverTheta`. -/
def thetaAfter (M : JsMath) (base01 : Rgb) (initTheta : Fin 4 → ℚ) (lr : ℚ)
    (n : ℕ) : (Fin 4 → ℚ) × ℚ :=
  (List.range n).foldl (thetaStep M base01) (initTheta, lr)

/-- `hover2.js` lines 197–219: gradient descent on the hover policy for a
fixed number of steps. -/
def optimizeHoverTheta (M : JsMath) (base01 : Rgb) (steps : ℕ) (lr : ℚ)
    (initTheta : Fin 4 → ℚ) : HoverOptResult :=
  let st := thetaAfter M base01 initTheta lr steps
  { theta := st.1, loss := lossForHoverTheta M base01 st.1 }

/-! ### Pipeline orchestrators -/

/-- Output of the extended pipeline (`hover2.js` `applyChain`). -/
structure PaletteResult where
  base01 : Rgb
  baseText : TextResult
  hover01 : Rgb
  hoverText : TextResult
  pageBg01 : Rgb
  hoverOpt : HoverOptResult

/-- Output of the simple pipeline (unnamed file's `applyChain`). -/
structure PaletteSimple where
  base01 : Rgb
  baseText : TextResult
  hover01 : Rgb
  hoverText : TextResult
  pageBg01 : Rgb

/-- `hover2.js` lines 223–248: the extended chain. Base text is optimized
from `[0.5, 0.5, 0.5]`; the hover policy from its default configuration
(900 steps, `lr = 1.4`, prior `(0.18, 0.82, 0.86, 0.92)`); hover text is
optimized on the hover background seeded from `baseText.params`; the page
background is the base darkened by `0.10` per channel. The text optimizer's
defaults are 160 steps, `lr = 0.35`. -/
def applyChain (M : JsMath) (baseRgb255 : Rgb) : PaletteResult :=
  let base01 := rgb01 baseRgb255
  let baseText := optimizeText M base01 160 0.35 ![0.5, 0.5, 0.5]
  let hoverOpt := optimizeHoverTheta M base01 900 1.4 ![0.18, 0.82, 0.86, 0.92]
  let hover01 := hoverFromBase base01 hoverOpt.theta
  let hoverText := optimizeText M hover01 160 0.35 baseText.params
  let pageBg01 : Rgb := ⟨clamp01 (base01.r * 0.10), clamp01 (base01.g * 0.10),
    clamp01 (base01.b * 0.10)⟩
  { base01, baseText, hover01, hoverText, pageBg01, hoverOpt }

/-- Unnamed file, lines 141–164: the simple chain — identical except the
hover background comes from the fixed-policy `hoverFromBaseFixed`. -/
def applyChainSimple (M : JsMath) (baseRgb255 : Rgb) : PaletteSimple :=
  let base01 := rgb01 baseRgb255
  let baseText := optimizeText M base01 160 0.35 ![0.5, 0.5, 0.5]
  let hover01 := hoverFromBaseFixed base01
  let hoverText := optimizeText M hover01 160 0.35 baseText.params
  let pageBg01 : Rgb := ⟨clamp01 (base01.r * 0.10), clamp01 (base01.g * 0.10),
    clamp01 (base01.b * 0.10)⟩
  { base01, baseText, hover01, hoverText, pageBg01 }

/-! ### Finite-difference schemes as the specification words them -/

/-- Modelled from the spec's words: the forward difference
`(f(x+ε) − f(x)) / ε` along axis `i`. -/
def forwardDiff {n : ℕ} (f : (Fin n → ℚ) → ℚ) (x : Fin n → ℚ) (eps : ℚ)
    (i : Fin n) : ℚ :=
  (f (Function.update x i (x i + eps)) - f x) / eps

/-- Modelled from the spec's words: the central difference
`(f(x+ε) − f(x−ε)) / (2ε)` along axis `i`. -/
def centralDiff {n : ℕ} (f : (Fin n → ℚ) → ℚ) (x : Fin n → ℚ) (eps : ℚ)
    (i : Fin n) : ℚ :=
  (f (Function.update x i (x i + eps)) - f (Function.update x i (x i - eps)))
    / (2 * eps)

/-- Membership of every channel in the unit interval (`Color01` invariant). -/
def inUnit (c : Rgb) : Prop := 0 ≤ c.r ∧ c.r ≤ 1 ∧ 0 ≤ c.g ∧ c.g ≤ 1
  ∧ 0 ≤ c.b ∧ c.b ≤ 1

instance : DecidablePred inUnit := fun c => by unfold inUnit; infer_instance

/-- The policy box `[0.35, 1]` enforced by `optimizeHoverTheta`'s
constraint lines. -/
def inBox (theta : Fin 4 → ℚ) : Prop := ∀ i, 0.35 ≤ theta i ∧ theta i ≤ 1

/-! ### Helper lemmas -/

lemma clamp01_mem (x : ℚ) : 0 ≤ clamp01 x ∧ clamp01 x ≤ 1 := by
  unfold clamp01
  exact ⟨le_max_left _ _, max_le (by norm_num) (min_le_left _ _)⟩

lemma clamp255_mem (x : ℚ) : 0 ≤ clamp255 x ∧ clamp255 x ≤ 255 := by
  unfold clamp255 jsRound
  have h0 : (0 : ℚ) ≤ max 0 (min 255 x) := le_max_left _ _
  have h1 : max 0 (min 255 x) ≤ 255 := max_le (by norm_num) (min_le_left _ _)
  constructor
  · exact Int.le_floor.mpr (by linarith)
  · exact Int.floor_le_iff.mpr (by linarith)

lemma clamp255_intCast (n : ℤ) (h0 : 0 ≤ n) (h1 : n ≤ 255) :
    clamp255 (n : ℚ) = n := by
  unfold clamp255 jsRound
  have hmin : min (255 : ℚ) (n : ℚ) = (n : ℚ) := by
    apply min_eq_right; exact_mod_cast h1
  have hmax : max (0 : ℚ) (n : ℚ) = (n : ℚ) := by
    apply max_eq_right; exact_mod_cast h0
  rw [hmin, hmax]
  rw [show ((n : ℚ) + 1 / 2) = ((n : ℤ) : ℚ) + (1 / 2 : ℚ) from rfl,
    Int.floor_int_add]
  norm_num

lemma mix_mem {t r tg : ℚ} (ht0 : 0 ≤ t) (ht1 : t ≤ 1) (hr0 : 0 ≤ r)
    (hr1 : r ≤ 1) (hg0 : 0 ≤ tg) (hg1 : tg ≤ 1) :
    0 ≤ (1 - t) * r + t * tg ∧ (1 - t) * r + t * tg ≤ 1 := by
  constructor <;> nlinarith

/-- The hover derivation clamps its policy on entry, so it maps the unit
cube into itself for every policy vector. -/
lemma hoverFromBase_mem (base01 : Rgb) (theta : Fin 4 → ℚ)
    (h : inUnit base01) : inUnit (hoverFromBase base01 theta) := by
  obtain ⟨hr0, hr1, hg0, hg1, hb0, hb1⟩ := h
  have ht := clamp01_mem (theta 0)
  have htr := clamp01_mem (base01.r * clamp01 (theta 1))
  have htg := clamp01_mem (base01.g * clamp01 (theta 2))
  have htb := clamp01_mem (base01.b * clamp01 (theta 3))
  have h1 := mix_mem ht.1 ht.2 hr0 hr1 htr.1 htr.2
  have h2 := mix_mem ht.1 ht.2 hg0 hg1 htg.1 htg.2
  have h3 := mix_mem ht.1 ht.2 hb0 hb1 htb.1 htb.2
  exact ⟨h1.1, h1.2, h2.1, h2.2, h3.1, h3.2⟩

lemma constraint0_mem (x : ℚ) :
    0.35 ≤ max 0.35 (clamp01 x) ∧ max 0.35 (clamp01 x) ≤ 1 :=
  ⟨le_max_left _ _, max_le (by norm_num) (clamp01_mem x).2⟩

lemma constraint123_mem (x : ℚ) :
    0.35 ≤ clamp01 (max 0.35 x) ∧ clamp01 (max 0.35 x) ≤ 1 := by
  refine ⟨?_, (clamp01_mem _).2⟩
  unfold clamp01
  exact le_max_of_le_right (le_min (by norm_num) (le_max_left _ _))

lemma thetaStep_inBox (M : JsMath) (base01 : Rgb) (st : (Fin 4 → ℚ) × ℚ)
    (s : ℕ) : inBox (thetaStep M base01 st s).1 := by
  intro i
  show 0.35 ≤ (if i = 0 then _ else _) ∧ (if i = 0 then _ else _) ≤ 1
  split
  · exact constraint0_mem _
  · exact constraint123_mem _

lemma thetaAfter_succ (M : JsMath) (base01 : Rgb) (initTheta : Fin 4 → ℚ)
    (lr : ℚ) (n : ℕ) :
    thetaAfter M base01 initTheta lr (n + 1) =
      thetaStep M base01 (thetaAfter M base01 initTheta lr n) n := by
  unfold thetaAfter
  rw [List.range_succ, List.foldl_append, List.foldl_cons, List.foldl_nil]

lemma foldl_fst_fixed {α β γ : Type} (f : α × β → γ → α × β)
    (hf : ∀ st s, (f st s).1 = st.1) :
    ∀ (l : List γ) (st : α × β), (l.foldl f st).1 = st.1 := by
  intro l
  induction l with
  | nil => intro st; rfl
  | cons a t ih => intro st; rw [List.foldl_cons, ih, hf]

lemma sigmoid_M0 (x : ℚ) : sigmoid M0 x = 1 / 2 := by
  unfold sigmoid M0
  norm_num

lemma textColorFromParams_M0 (p : Fin 3 → ℚ) :
    textColorFromParams M0 p = ⟨1 / 2, 1 / 2, 1 / 2⟩ := by
  unfold textColorFromParams
  rw [sigmoid_M0, sigmoid_M0, sigmoid_M0]

lemma gradNumerical_M0 (bg01 : Rgb) (p : Fin 3 → ℚ) (i : Fin 3) :
    (gradNumerical M0 bg01 p).2 i = 0 := by
  simp only [gradNumerical, textColorFromParams_M0]
  simp

lemma textStep_M0_fst (bg01 : Rgb) (st : (Fin 3 → ℚ) × ℚ) (s : ℕ) :
    (textStep M0 bg01 st s).1 = st.1 := by
  funext i
  simp only [textStep]
  rw [gradNumerical_M0]
  ring

lemma optimizeText_M0_params (bg01 : Rgb) (steps : ℕ) (lr : ℚ)
    (initParams : Fin 3 → ℚ) :
    (optimizeText M0 bg01 steps lr initParams).params = initParams := by
  unfold optimizeText
  exact foldl_fst_fixed _ (textStep_M0_fst bg01) _ _

lemma mapM_eq_some {α β : Type} (f : α → Option β) (d : β) :
    ∀ l : List α, (∀ t ∈ l, (f t).isSome) →
      l.mapM f = some (l.map (fun t => (f t).getD d)) := by
  intro l
  induction l with
  | nil => intro _; rfl
  | cons a t ih =>
    intro h
    obtain ⟨b, hb⟩ := Option.isSome_iff_exists.mp (h a (by simp))
    rw [List.mapM_cons, ih (fun x hx => h x (by simp [hx]))]
    simp [hb]

lemma mapM_eq_none {α β : Type} (f : α → Option β) (t : α)
    (hnone : f t = none) :
    ∀ l : List α, t ∈ l → l.mapM f = none := by
  intro l
  induction l with
  | nil => intro ht; cases ht
  | cons a tl ih =>
    intro ht
    rw [List.mapM_cons]
    rcases List.mem_cons.mp ht with h | h
    · subst h; simp [hnone]
    · rw [ih h]; cases ha : f a <;> rfl

lemma parseRGB_eq_some (s : String) (h3 : (rgbTokens s).length = 3)
    (hnum : ∀ t ∈ rgbTokens s, (jsNumber t).isSome) :
    parseRGB s =
      some ((rgbTokens s).map (fun t => clamp255 ((jsNumber t).getD 0))) := by
  simp only [parseRGB]
  rw [if_pos h3, mapM_eq_some jsNumber 0 _ hnum]
  simp [List.map_map, Function.comp]

lemma parseRGB_eq_none_of_nan (s : String) (t : List Char)
    (ht : t ∈ rgbTokens s) (hnan : jsNumber t = none) :
    parseRGB s = none := by
  simp only [parseRGB]
  rcases eq_or_ne (rgbTokens s).length 3 with h3 | h3
  · rw [if_pos h3, mapM_eq_none jsNumber t hnan _ ht]
  · rw [if_neg h3]

lemma parseRGB_eq_none_of_length (s : String)
    (h3 : (rgbTokens s).length ≠ 3) : parseRGB s = none := by
  simp only [parseRGB]
  rw [if_neg h3]

/-! ### Claim theorems -/

/-- C1 (counterexample): at base color `(1/100, 1/100, 1/100)` and policy
`(1/2, 1/2, 1/2, 1/2)`, the 4-parameter estimator `gradThetaNumerical`'s
component 0 differs from the central difference of `lossForHoverTheta` along
axis 0 — the code takes a forward difference there, not the central
difference the claim asserts. All color channels involved stay in the
linear sRGB branch, so the `JsMath` stub is never consulted. -/
theorem gradThetaNumerical_not_central_difference :
    (gradThetaNumerical M0 ⟨1/100, 1/100, 1/100⟩ ![1/2, 1/2, 1/2, 1/2]).2 0 ≠
      centralDiff (lossForHoverTheta M0 ⟨1/100, 1/100, 1/100⟩)
        ![1/2, 1/2, 1/2, 1/2] 1e-3 0 := by
  with_unfolding_all decide

/-- C1 (amended): both numerical gradient estimators perturb each axis by
the fixed step `1e-3` and use a forward difference `(f(x+ε) − f(x))/ε`: the
3-parameter `gradNumerical` against `lossForText` composed with the sigmoid
parameter map, and the 4-parameter `gradThetaNumerical` against
`lossForHoverTheta` — the 4-parameter estimator does NOT use a central
difference. -/
theorem gradNumerical_gradThetaNumerical_forward_difference :
    (∀ (M : JsMath) (bg01 : Rgb) (p : Fin 3 → ℚ) (i : Fin 3),
      (gradNumerical M bg01 p).2 i =
        forwardDiff (fun q => lossForText M bg01 (textColorFromParams M q))
          p 1e-3 i) ∧
    (∀ (M : JsMath) (base01 : Rgb) (th : Fin 4 → ℚ) (i : Fin 4),
      (gradThetaNumerical M base01 th).2 i =
        forwardDiff (lossForHoverTheta M base01) th 1e-3 i) :=
  ⟨fun _ _ _ _ => rfl, fun _ _ _ _ => rfl⟩

/-- C3 (counterexample): there is NO policy vector with out-of-range entries
and base color in the unit cube for which `hoverFromBase` escapes the unit
cube — the function clamps each policy entry on entry, so the claimed
out-of-range outputs never occur. -/
theorem hoverFromBase_no_out_of_range_output :
    ¬ ∃ (theta : Fin 4 → ℚ) (base01 : Rgb),
      (¬ ∀ i, 0 ≤ theta i ∧ theta i ≤ 1) ∧ inUnit base01 ∧
        ¬ inUnit (hoverFromBase base01 theta) := by
  rintro ⟨theta, base01, -, hb, hout⟩
  exact hout (hoverFromBase_mem base01 theta hb)

/-- C3 (amended): `hoverFromBase` clamps each policy entry into `[0,1]`
before use, so for every real-valued policy vector (in particular one with
entries outside `[0,1]`) and every base color in the unit cube, all output
channels lie in `[0,1]`: invalid policies are repaired by the function's own
input clamping, not by downstream clamping of out-of-range output. -/
theorem hoverFromBase_clamps_policy_output_unit :
    ∀ (theta : Fin 4 → ℚ) (base01 : Rgb), inUnit base01 →
      inUnit (hoverFromBase base01 theta) :=
  fun theta base01 h => hoverFromBase_mem base01 theta h

/-- Witness for C3's amended theorem: the out-of-range policy
`(2, −1, 3, 5)` on the mid-gray base still yields in-range output. -/
theorem hoverFromBase_clamps_policy_output_unit_witness :
    inUnit ⟨1/2, 1/2, 1/2⟩ ∧
      inUnit (hoverFromBase ⟨1/2, 1/2, 1/2⟩ ![2, -1, 3, 5]) :=
  ⟨by with_unfolding_all decide,
    hoverFromBase_clamps_policy_output_unit ![2, -1, 3, 5] ⟨1/2, 1/2, 1/2⟩
      (by with_unfolding_all decide)⟩

/-- C4 (confirmed): `parseRGB` returns the explicit invalid result `none`
exactly when the comma-split, trimmed, empty-dropped token list is not three
numeric tokens; the four listed invalid strings all yield `none`, and
`"10, 20, 30"` parses to `[10, 20, 30]`. (The embedding is a total function
into `Option`, matching the source's no-exception contract.) -/
theorem parseRGB_invalid_iff_not_three_numeric :
    (∀ s : String, parseRGB s = none ↔
      ¬((rgbTokens s).length = 3 ∧ ∀ t ∈ rgbTokens s, (jsNumber t).isSome)) ∧
    parseRGB "1,2" = none ∧ parseRGB "a,b,c" = none ∧ parseRGB "" = none ∧
    parseRGB "1,2,3,4" = none ∧ parseRGB "10, 20, 30" = some [10, 20, 30] := by
  refine ⟨fun s => ?_, by with_unfolding_all decide,
    by with_unfolding_all decide, by with_unfolding_all decide,
    by with_unfolding_all decide, by with_unfolding_all decide⟩
  constructor
  · intro hnone hcond
    rw [parseRGB_eq_some s hcond.1 hcond.2] at hnone
    cases hnone
  · intro hcond
    rcases eq_or_ne (rgbTokens s).length 3 with h3 | h3
    · have : ¬ ∀ t ∈ rgbTokens s, (jsNumber t).isSome := fun hall =>
        hcond ⟨h3, hall⟩
      push_neg at this
      obtain ⟨t, ht, htn⟩ := this
      exact parseRGB_eq_none_of_nan s t ht
        (Option.not_isSome_iff_eq_none.mp htn)
    · exact parseRGB_eq_none_of_length s h3

/-- C10 (confirmed): `parseRGB` drops empty tokens (split, trim, filter)
before the arity check, so any input whose non-empty trimmed tokens are
exactly three numerics parses successfully to their clamped values; in
particular `"10,,20,30"` (extra comma) and `"10,20,30,"` (trailing comma)
both parse to `[10, 20, 30]`. -/
theorem parseRGB_drops_empty_tokens :
    (∀ s : String, (rgbTokens s).length = 3 →
      (∀ t ∈ rgbTokens s, (jsNumber t).isSome) →
      parseRGB s =
        some ((rgbTokens s).map (fun t => clamp255 ((jsNumber t).getD 0)))) ∧
    parseRGB "10,,20,30" = some [10, 20, 30] ∧
    parseRGB "10,20,30," = some [10, 20, 30] :=
  ⟨parseRGB_eq_some, by with_unfolding_all decide, by with_unfolding_all decide⟩

/-- Witness for C10: the extra-comma input `"10,,20,30"` satisfies both
hypotheses and the theorem computes its parse. -/
theorem parseRGB_drops_empty_tokens_witness :
    (rgbTokens "10,,20,30").length = 3 ∧
      parseRGB "10,,20,30" =
        some ((rgbTokens "10,,20,30").map
          (fun t => clamp255 ((jsNumber t).getD 0))) :=
  ⟨by with_unfolding_all decide,
    parseRGB_drops_empty_tokens.1 "10,,20,30" (by with_unfolding_all decide)
      (by with_unfolding_all decide)⟩

/-- C7 (confirmed): for every byte triple with all channels in `[0, 255]`,
scaling to unit range (`rgb01`), back up by 255 and re-quantizing
(`rgb255`, the `toByte` path of `setCssVars`) returns the triple exactly. -/
theorem rgb255_rgb01_round_trip :
    ∀ c : Rgb255, 0 ≤ c.r → c.r ≤ 255 → 0 ≤ c.g → c.g ≤ 255 →
      0 ≤ c.b → c.b ≤ 255 →
      rgb255 (scale255 (rgb01 ⟨(c.r : ℚ), (c.g : ℚ), (c.b : ℚ)⟩)) = c := by
  intro c hr0 hr1 hg0 hg1 hb0 hb1
  have h255 : (255 : ℚ) ≠ 0 := by norm_num
  simp only [rgb01, scale255, rgb255]
  rw [div_mul_cancel₀ _ h255, div_mul_cancel₀ _ h255, div_mul_cancel₀ _ h255,
    clamp255_intCast _ hr0 hr1, clamp255_intCast _ hg0 hg1,
    clamp255_intCast _ hb0 hb1]

/-- Witness for C7: the round trip at the spec's example color
`(34, 139, 230)`. -/
theorem rgb255_rgb01_round_trip_witness :
    rgb255 (scale255 (rgb01 ⟨34, 139, 230⟩)) = ⟨34, 139, 230⟩ :=
  rgb255_rgb01_round_trip ⟨34, 139, 230⟩ (by decide) (by decide) (by decide)
    (by decide) (by decide) (by decide)

/-- C2 (counterexample): `"300, 0, 0"` has exactly three numeric
comma-separated tokens, yet `parseRgbInput` (hover.js) reports the invalid
signal instead of clamping — refuting "numeric values outside [0,255] ...
never cause the parse to report invalid" for that parser. -/
theorem parseRgbInput_rejects_three_numeric_tokens :
    parseRgbInput "300, 0, 0" = none ∧
      (rgbTokens "300, 0, 0").length = 3 ∧
      ∀ t ∈ rgbTokens "300, 0, 0", (jsNumber t).isSome := by
  with_unfolding_all decide

/-- C2 (amended): `parseRGB` (hover2.js and the unnamed file) behaves as
claimed — every input whose tokens are exactly three numeric values parses
successfully with each channel clamped into `[0,255]` — but `parseRgbInput`
(hover.js) instead REJECTS any integer token outside `[0,255]`, reporting
the invalid signal rather than clamping. -/
theorem parseRGB_clamps_parseRgbInput_rejects :
    (∀ s : String, (rgbTokens s).length = 3 →
      (∀ t ∈ rgbTokens s, (jsNumber t).isSome) →
      ∃ l, parseRGB s = some l ∧ l.length = 3 ∧
        ∀ x ∈ l, 0 ≤ x ∧ x ≤ 255) ∧
    (∀ (s : String) (t : List Char) (v : ℤ), t ∈ splitChar ',' s.data →
      jsParseInt (trimChars t) = some v → (v < 0 ∨ 255 < v) →
      parseRgbInput s = none) := by
  constructor
  · intro s h3 hnum
    refine ⟨_, parseRGB_eq_some s h3 hnum, ?_, ?_⟩
    · rw [List.length_map, h3]
    · intro x hx
      obtain ⟨t, _, rfl⟩ := List.mem_map.mp hx
      exact clamp255_mem _
  · intro s t v ht hv hrange
    simp only [parseRgbInput]
    rcases eq_or_ne ((splitChar ',' s.data).map
        (fun v => jsParseInt (trimChars v))).length 3 with h3 | h3
    · rw [if_pos h3, if_pos]
      refine List.any_eq_true.mpr ⟨some v, List.mem_map.mpr ⟨t, ht, hv⟩, ?_⟩
      rcases hrange with h | h <;> simp [h]
    · rw [if_neg h3]

/-- Witness for C2's amended theorem: `"300, 0, 0"` discharges both parts —
`parseRGB` clamps it, `parseRgbInput` rejects it at token `"300"`. -/
theorem parseRGB_clamps_parseRgbInput_rejects_witness :
    (∃ l, parseRGB "300, 0, 0" = some l ∧ l.length = 3 ∧
      ∀ x ∈ l, 0 ≤ x ∧ x ≤ 255) ∧
    parseRgbInput "300, 0, 0" = none :=
  ⟨parseRGB_clamps_parseRgbInput_rejects.1 "300, 0, 0"
      (by with_unfolding_all decide) (by with_unfolding_all decide),
    parseRGB_clamps_parseRgbInput_rejects.2 "300, 0, 0" "300".data 300
      (by with_unfolding_all decide) (by with_unfolding_all decide)
      (Or.inr (by decide))⟩

/-- C5 (confirmed): the hover-policy optimizer re-imposes the box
`[0.35, 1]` on every axis after every update step — so every post-step
intermediate state and the returned policy of the 900-step run lie in the
box — while the text optimizer applies no such constraint: there is an
interpretation and initial point from which `optimizeText`'s full 160-step
default run returns its parameters untouched at `2 > 1`, outside the box. -/
theorem optimizeHoverTheta_box_optimizeText_unconstrained :
    (∀ (M : JsMath) (base01 : Rgb) (init : Fin 4 → ℚ) (lr : ℚ) (n : ℕ),
      inBox (thetaAfter M base01 init lr (n + 1)).1) ∧
    (∀ (M : JsMath) (base01 : Rgb),
      inBox (optimizeHoverTheta M base01 900 1.4
        ![0.18, 0.82, 0.86, 0.92]).theta) ∧
    (∃ (M : JsMath) (bg01 : Rgb) (init : Fin 3 → ℚ),
      (optimizeText M bg01 160 0.35 init).params = init ∧
        1 < (optimizeText M bg01 160 0.35 init).params 0) := by
  have hstep : ∀ (M : JsMath) (base01 : Rgb) (init : Fin 4 → ℚ) (lr : ℚ)
      (n : ℕ), inBox (thetaAfter M base01 init lr (n + 1)).1 := by
    intro M base01 init lr n
    rw [thetaAfter_succ]
    exact thetaStep_inBox M base01 _ n
  refine ⟨hstep, fun M base01 => ?_, ⟨M0, ⟨0, 0, 0⟩, ![2, 0, 0],
    optimizeText_M0_params _ _ _ _, ?_⟩⟩
  · have h : (optimizeHoverTheta M base01 900 1.4
        ![0.18, 0.82, 0.86, 0.92]).theta =
          (thetaAfter M base01 ![0.18, 0.82, 0.86, 0.92] 1.4 900).1 := by
      simp only [optimizeHoverTheta]
    rw [h, show (900 : ℕ) = 899 + 1 from rfl]
    exact hstep M base01 ![0.18, 0.82, 0.86, 0.92] 1.4 899
  · rw [optimizeText_M0_params]
    norm_num

/-- C6 (confirmed): in both orchestrators the hover-text stage is the text
optimizer run on the hover background with initial parameters equal to the
`params` field of the base-text result (warm start), and that `params` field
is the only channel through which the base-text stage influences the
hover-text stage: any two runs agreeing on the hover background and on the
base-text final parameters produce identical hover-text results. -/
theorem applyChain_warm_start :
    (∀ (M : JsMath) (c : Rgb), (applyChain M c).hoverText =
      optimizeText M (applyChain M c).hover01 160 0.35
        ((applyChain M c).baseText.params)) ∧
    (∀ (M : JsMath) (c : Rgb), (applyChainSimple M c).hoverText =
      optimizeText M (applyChainSimple M c).hover01 160 0.35
        ((applyChainSimple M c).baseText.params)) ∧
    (∀ (M : JsMath) (c₁ c₂ : Rgb),
      (applyChain M c₁).hover01 = (applyChain M c₂).hover01 →
      (applyChain M c₁).baseText.params = (applyChain M c₂).baseText.params →
      (applyChain M c₁).hoverText = (applyChain M c₂).hoverText) :=
  ⟨fun _ _ => rfl, fun _ _ => rfl, fun M c₁ c₂ h1 h2 => by
    show optimizeText M (applyChain M c₁).hover01 160 0.35
        ((applyChain M c₁).baseText.params) =
      optimizeText M (applyChain M c₂).hover01 160 0.35
        ((applyChain M c₂).baseText.params)
    rw [h1, h2]⟩

/-- Witness for C6: both dependency hypotheses are discharged (reflexively)
at the concrete base `(34, 139, 230)` under the stub interpretation. -/
theorem applyChain_warm_start_witness :
    (applyChain M0 ⟨34, 139, 230⟩).hoverText =
      optimizeText M0 (applyChain M0 ⟨34, 139, 230⟩).hover01 160 0.35
        ((applyChain M0 ⟨34, 139, 230⟩).baseText.params) :=
  (applyChain_warm_start.2.2 M0 ⟨34, 139, 230⟩ ⟨34, 139, 230⟩ rfl rfl).trans
    (applyChain_warm_start.1 M0 ⟨34, 139, 230⟩)

/-- C9 (confirmed): both orchestrators are deterministic — the embedding is
a pure function of the base input (and the `JsMath` interpretation), with no
source of randomness, so two invocations on equal inputs agree on every
field of the result, including the extended variant's hover-policy result. -/
theorem applyChain_deterministic :
    ∀ (M : JsMath) (c₁ c₂ : Rgb), c₁ = c₂ →
      ((applyChain M c₁).base01 = (applyChain M c₂).base01 ∧
        (applyChain M c₁).baseText = (applyChain M c₂).baseText ∧
        (applyChain M c₁).hover01 = (applyChain M c₂).hover01 ∧
        (applyChain M c₁).hoverText = (applyChain M c₂).hoverText ∧
        (applyChain M c₁).pageBg01 = (applyChain M c₂).pageBg01 ∧
        (applyChain M c₁).hoverOpt = (applyChain M c₂).hoverOpt) ∧
      applyChainSimple M c₁ = applyChainSimple M c₂ := by
  intro M c₁ c₂ h
  subst h
  exact ⟨⟨rfl, rfl, rfl, rfl, rfl, rfl⟩, rfl⟩

/-- Witness for C9: the determinism theorem at the concrete base
`(34, 139, 230)` under the stub interpretation. -/
theorem applyChain_deterministic_witness :
    (applyChain M0 ⟨34, 139, 230⟩).base01 =
      (applyChain M0 ⟨34, 139, 230⟩).base01 :=
  (applyChain_deterministic M0 ⟨34, 139, 230⟩ ⟨34, 139, 230⟩ rfl).1.1

/-- C8 (confirmed): on any gray input in the unit cube (max channel equals
min channel, pure black included) `rgbToHsv` yields hue 0 and saturation 0;
and for every input in the unit cube the division-instrumented `rgbToHsvD`
— which returns `none` the moment any division has a zero divisor — agrees
with `rgbToHsv` and returns `some`, certifying that the `d ≠ 0` guard on the
hue computation and the `max = 0` guard on the saturation computation
prevent every division by zero. -/
theorem rgbToHsv_gray_no_div_zero :
    (∀ c : Rgb, inUnit c →
      max c.r (max c.g c.b) = min c.r (min c.g c.b) →
      rgbToHsv c = ⟨0, 0, max c.r (max c.g c.b)⟩) ∧
    (∀ c : Rgb, inUnit c → rgbToHsvD c = some (rgbToHsv c)) := by
  constructor
  · intro c _ hgray
    have hd : max c.r (max c.g c.b) - min c.r (min c.g c.b) = 0 := by
      rw [hgray]; ring
    simp only [rgbToHsv, hd]
    simp
  · intro c _
    simp only [rgbToHsvD, rgbToHsv, divD]
    rcases eq_or_ne (max c.r (max c.g c.b) - min c.r (min c.g c.b)) 0 with
      hd | hd
    · simp [hd]
      split_ifs <;> simp
    · rcases eq_or_ne (max c.r (max c.g c.b)) 0 with hmx | hmx
      · simp only [hmx, hd]
        simp [hd]
        split_ifs <;> first | rfl | assumption | simp_all
      · simp only [hd]
        simp [hmx, hd]
        split_ifs <;> first | rfl | assumption | simp_all

/-- Witness for C8: mid-gray `(1/2, 1/2, 1/2)` and pure black `(0, 0, 0)`
discharge the hypotheses; hue and saturation come out 0 and the
instrumented conversion returns `some` on both. -/
theorem rgbToHsv_gray_no_div_zero_witness :
    rgbToHsv ⟨1/2, 1/2, 1/2⟩ = ⟨0, 0, max (1/2 : ℚ) (max (1/2) (1/2))⟩ ∧
    rgbToHsv ⟨0, 0, 0⟩ = ⟨0, 0, max (0 : ℚ) (max 0 0)⟩ ∧
    rgbToHsvD ⟨0, 0, 0⟩ = some (rgbToHsv ⟨0, 0, 0⟩) :=
  ⟨rgbToHsv_gray_no_div_zero.1 ⟨1/2, 1/2, 1/2⟩ (by with_unfolding_all decide)
      (by with_unfolding_all decide),
    rgbToHsv_gray_no_div_zero.1 ⟨0, 0, 0⟩ (by with_unfolding_all decide)
      (by with_unfolding_all decide),
    rgbToHsv_gray_no_div_zero.2 ⟨0, 0, 0⟩ (by with_unfolding_all decide)⟩
